import Mathlib

/-!
Shallow embedding of the MPU6050 FTDI/I2C driver core
(src/01-mpu6050-interface/src/mpu6050.rs, with supporting declarations from
ffi.rs and error.rs).

The vendor bus primitive (I2C_DeviceWrite / I2C_DeviceRead) is modelled by a
script of responses: each primitive call consumes the head of a `List BusResp`
and appends the call it made to an event trace (`List BusEv`).  A run of a
driver operation is therefore a function from the driver state (the
`fifo_enabled` flag) and the bus script to
`Option (Except Mpu6050Error α × state × remaining script × events)`;
`none` means the script did not match the calls the code makes (wrong kind of
response, or script exhausted / loop fuel exhausted).  Sleeps perform no bus
I/O and are elided.  Machine integers are modelled as `Nat` with explicit
`% 256` where u8 truncation happens in the source.
-/

namespace Mpu

/-! ## Constants (mpu6050.rs, ffi.rs) -/

def MPU6050_ADDRESS : Nat := 0x68

def REG_WHO_AM_I : Nat := 0x75
def REG_PWR_MGMT_1 : Nat := 0x6B
def REG_ACCEL_CONFIG : Nat := 0x1C
def REG_GYRO_CONFIG : Nat := 0x1B
def REG_ACCEL_XOUT_H : Nat := 0x3B
def REG_GYRO_XOUT_H : Nat := 0x43
def REG_SMPLRT_DIV : Nat := 0x19
def REG_CONFIG : Nat := 0x1A
def REG_FIFO_EN : Nat := 0x23
def REG_INT_STATUS : Nat := 0x3A
def REG_USER_CTRL : Nat := 0x6A
def REG_FIFO_COUNTH : Nat := 0x72
def REG_FIFO_COUNTL : Nat := 0x73
def REG_FIFO_R_W : Nat := 0x74

def FIFO_EN_ALL_SENSORS : Nat := 0x78
def USER_CTRL_FIFO_EN : Nat := 0x40
def USER_CTRL_FIFO_RESET : Nat := 0x04
def INT_STATUS_FIFO_OVERFLOW : Nat := 0x10
def FIFO_SAMPLE_SIZE : Nat := 12
def WHO_AM_I_VALUE : Nat := 0x68

def FT_OK : Nat := 0

def I2C_TRANSFER_OPTIONS_START_BIT : Nat := 0x01
def I2C_TRANSFER_OPTIONS_STOP_BIT : Nat := 0x02
def I2C_TRANSFER_OPTIONS_BREAK_ON_NACK : Nat := 0x04
def I2C_TRANSFER_OPTIONS_NACK_LAST_BYTE : Nat := 0x08
def I2C_TRANSFER_OPTIONS_FAST_TRANSFER_BYTES : Nat := 0x10

/-- ffi.rs `status_to_string`. -/
def status_to_string (status : Nat) : String :=
  match status with
  | 0 => "FT_OK"
  | 1 => "FT_INVALID_HANDLE"
  | 2 => "FT_DEVICE_NOT_FOUND"
  | 3 => "FT_DEVICE_NOT_OPENED"
  | 4 => "FT_IO_ERROR"
  | 5 => "FT_INSUFFICIENT_RESOURCES"
  | 6 => "FT_INVALID_PARAMETER"
  | 7 => "FT_INVALID_BAUD_RATE"
  | 8 => "FT_DEVICE_NOT_OPENED_FOR_ERASE"
  | 9 => "FT_DEVICE_NOT_OPENED_FOR_WRITE"
  | 10 => "FT_FAILED_TO_WRITE_DEVICE"
  | 11 => "FT_EEPROM_READ_FAILED"
  | 12 => "FT_EEPROM_WRITE_FAILED"
  | 13 => "FT_EEPROM_ERASE_FAILED"
  | 14 => "FT_EEPROM_NOT_PRESENT"
  | 15 => "FT_EEPROM_NOT_PROGRAMMED"
  | 16 => "FT_INVALID_ARGS"
  | 17 => "FT_NOT_SUPPORTED"
  | 18 => "FT_OTHER_ERROR"
  | _ => "UNKNOWN_ERROR"

/-! ## Error type (error.rs).

error.rs in the shipped tree declares FtdiError, NoChannelsFound,
InvalidChannel, CommunicationError, InvalidDeviceId, TransferError and
InvalidParameter.  mpu6050.rs additionally constructs three FIFO variants
whose declarations are not in the shipped error.rs.  Modelled from the spec:
the error surface also has FifoNotEnabled, FifoOverflow{samples_lost} and
InvalidFifoConfig(reason); their payload shapes are fixed by the construction
sites in mpu6050.rs (`samples_lost: format!("~{}", n)` is a string, the
InvalidFifoConfig payload is the formatted reason string).  The spec calls
FtdiError "BusFault (non-ok bus status, carries status+description)". -/
inductive Mpu6050Error where
  | FtdiError (status : Nat) (description : String)
  | NoChannelsFound
  | InvalidChannel (index : Nat)
  | CommunicationError (msg : String)
  | InvalidDeviceId (got : Nat)
  | TransferError (expected : Nat) (actual : Nat)
  | InvalidParameter (reason : String)
  | FifoNotEnabled
  | FifoOverflow (samples_lost : String)
  | InvalidFifoConfig (reason : String)
deriving DecidableEq, Repr

/-- `impl From<FT_STATUS> for Mpu6050Error` (error.rs): a non-ok status maps
to `FtdiError { status, description: status_to_string(status) }`. -/
def ftdiError (status : Nat) : Mpu6050Error :=
  Mpu6050Error.FtdiError status (status_to_string status)

/-! ## Data model (mpu6050.rs) -/

/-- Rust `StreamControl`. -/
inductive StreamControl where
  | Continue
  | Break
deriving DecidableEq, Repr

/-- Rust `SensorData`: six raw i16 axis values, modelled as `Int`. -/
structure SensorData where
  accel_x : Int
  accel_y : Int
  accel_z : Int
  gyro_x : Int
  gyro_y : Int
  gyro_z : Int
deriving DecidableEq, Repr

/-- `i16::from_be_bytes([h, l])` on two u8 values (inputs reduced mod 256). -/
def i16_from_be (h l : Nat) : Int :=
  let u := (h % 256) * 256 + l % 256
  if u < 32768 then (u : Int) else (u : Int) - 65536

/-- Driver state threaded through operations: the `fifo_enabled` field of
struct `Mpu6050` (handle and fixed device address carry no protocol state). -/
structure Mpu6050 where
  fifo_enabled : Bool
deriving DecidableEq, Repr

/-! ## Bus model -/

/-- One scripted response of the bus primitive. -/
inductive BusResp where
  | wr (status : Nat) (transferred : Nat)
  | rd (status : Nat) (bytes : List Nat) (transferred : Nat)
deriving DecidableEq, Repr

/-- One observable bus call made by the driver. -/
inductive BusEv where
  | devWrite (bytes : List Nat) (options : Nat)
  | devRead (count : Nat) (options : Nat)
deriving DecidableEq, Repr

/-- The run monad: state, bus script in, outcome, state, script and event
trace out.  `none`: the script (or loop fuel) did not cover the run. -/
def M (α : Type) : Type :=
  Mpu6050 → List BusResp →
    Option (Except Mpu6050Error α × Mpu6050 × List BusResp × List BusEv)

def mpure {α : Type} (a : α) : M α :=
  fun st bus => some (Except.ok a, st, bus, [])

def throwM {α : Type} (e : Mpu6050Error) : M α :=
  fun st bus => some (Except.error e, st, bus, [])

def mbind {α β : Type} (x : M α) (f : α → M β) : M β :=
  fun st bus =>
    match x st bus with
    | none => none
    | some (Except.error e, st2, bus2, ev) => some (Except.error e, st2, bus2, ev)
    | some (Except.ok a, st2, bus2, ev) =>
      match f a st2 bus2 with
      | none => none
      | some (r, st3, bus3, ev2) => some (r, st3, bus3, ev ++ ev2)

/-- Lift a pure `Except` computation (used where the source calls a pure
fallible function and propagates with `?`). -/
def liftExcept {α : Type} (x : Except Mpu6050Error α) : M α :=
  fun st bus => some (x, st, bus, [])

def getFifoEnabled : M Bool :=
  fun st bus => some (Except.ok st.fifo_enabled, st, bus, [])

def setFifoEnabled (b : Bool) : M Unit :=
  fun _ bus => some (Except.ok (), ⟨b⟩, bus, [])

/-- `I2C_DeviceWrite` against the script: consumes a `wr` response, records
the written bytes and framing options. -/
def I2C_DeviceWrite (bytes : List Nat) (options : Nat) : M (Nat × Nat) :=
  fun st bus =>
    match bus with
    | BusResp.wr status transferred :: rest =>
      some (Except.ok (status, transferred), st, rest, [BusEv.devWrite bytes options])
    | _ => none

/-- `I2C_DeviceRead` against the script: consumes an `rd` response.  The
source reads into a `vec![0u8; count]`, so the data delivered to the driver
always has length `count` (script bytes truncated mod 256, zero-padded). -/
def I2C_DeviceRead (count : Nat) (options : Nat) : M (Nat × List Nat × Nat) :=
  fun st bus =>
    match bus with
    | BusResp.rd status bytes transferred :: rest =>
      some (Except.ok
              (status,
               (bytes.map (fun b => b % 256) ++ List.replicate count 0).take count,
               transferred),
            st, rest, [BusEv.devRead count options])
    | _ => none

/-! ## RegisterAccess (mpu6050.rs lines 219-359) -/

/-- `Mpu6050::write_register`: one write transaction with
START|STOP|FAST_TRANSFER_BYTES framing; only the status is checked. -/
def write_register (reg value : Nat) : M Unit :=
  mbind (I2C_DeviceWrite [reg, value]
          (I2C_TRANSFER_OPTIONS_START_BIT + I2C_TRANSFER_OPTIONS_STOP_BIT +
           I2C_TRANSFER_OPTIONS_FAST_TRANSFER_BYTES)) fun w =>
  if w.1 ≠ FT_OK then throwM (ftdiError w.1) else
  mpure ()

/-- `Mpu6050::read_register`: write the register address
(START|BREAK_ON_NACK), then read one byte (START|STOP|NACK_LAST_BYTE);
checks both statuses and that the reported transferred count is 1. -/
def read_register (reg : Nat) : M Nat :=
  mbind (I2C_DeviceWrite [reg]
          (I2C_TRANSFER_OPTIONS_START_BIT + I2C_TRANSFER_OPTIONS_BREAK_ON_NACK)) fun w =>
  if w.1 ≠ FT_OK then throwM (ftdiError w.1) else
  mbind (I2C_DeviceRead 1
          (I2C_TRANSFER_OPTIONS_START_BIT + I2C_TRANSFER_OPTIONS_STOP_BIT +
           I2C_TRANSFER_OPTIONS_NACK_LAST_BYTE)) fun r =>
  if r.1 ≠ FT_OK then throwM (ftdiError r.1) else
  if r.2.2 ≠ 1 then throwM (Mpu6050Error.TransferError 1 r.2.2) else
  mpure (r.2.1.headD 0)

/-- `Mpu6050::read_registers`: burst read.  Writes the start address
(START|BREAK_ON_NACK|FAST_TRANSFER_BYTES), then reads `count` bytes
(START|STOP|NACK_LAST_BYTE|FAST_TRANSFER_BYTES).  Only the statuses are
checked: under fast-transfer framing the reported transferred count is in
bits, so the source deliberately performs no transferred-count check. -/
def read_registers (reg count : Nat) : M (List Nat) :=
  mbind (I2C_DeviceWrite [reg]
          (I2C_TRANSFER_OPTIONS_START_BIT + I2C_TRANSFER_OPTIONS_BREAK_ON_NACK +
           I2C_TRANSFER_OPTIONS_FAST_TRANSFER_BYTES)) fun w =>
  if w.1 ≠ FT_OK then throwM (ftdiError w.1) else
  mbind (I2C_DeviceRead count
          (I2C_TRANSFER_OPTIONS_START_BIT + I2C_TRANSFER_OPTIONS_STOP_BIT +
           I2C_TRANSFER_OPTIONS_NACK_LAST_BYTE +
           I2C_TRANSFER_OPTIONS_FAST_TRANSFER_BYTES)) fun r =>
  if r.1 ≠ FT_OK then throwM (ftdiError r.1) else
  mpure r.2.1

/-! ## FifoController (mpu6050.rs lines 361-419, 632-817) -/

/-- `Mpu6050::read_fifo_count_raw`: reads FIFO_COUNTH then FIFO_COUNTL and
combines them as `u16::from_be_bytes([high, low])`. -/
def read_fifo_count_raw : M Nat :=
  mbind (read_register REG_FIFO_COUNTH) fun high =>
  mbind (read_register REG_FIFO_COUNTL) fun low =>
  mpure (high * 256 + low)

/-- `Mpu6050::read_fifo_raw`: no bus I/O for a zero count, otherwise a burst
read of the auto-incrementing FIFO data port. -/
def read_fifo_raw (count : Nat) : M (List Nat) :=
  if count = 0 then mpure [] else read_registers REG_FIFO_R_W count

/-- `Mpu6050::check_fifo_overflow`: reads INT_STATUS and tests the FIFO
overflow bit. -/
def check_fifo_overflow : M Bool :=
  mbind (read_register REG_INT_STATUS) fun int_status =>
  mpure (decide (int_status &&& INT_STATUS_FIFO_OVERFLOW ≠ 0))

/-- The InvalidFifoConfig message `parse_fifo_data` formats for a buffer
whose length is not a multiple of the sample size. -/
def parseLenMsg (len : Nat) : String :=
  "FIFO data length " ++ toString len ++ " is not a multiple of sample size " ++
    toString FIFO_SAMPLE_SIZE

/-- One 12-byte FIFO record in fixed order: accel x,y,z then gyro x,y,z,
each a big-endian i16 pair. -/
def sensorOfChunk (chunk : List Nat) : SensorData :=
  { accel_x := i16_from_be (chunk.getD 0 0) (chunk.getD 1 0)
    accel_y := i16_from_be (chunk.getD 2 0) (chunk.getD 3 0)
    accel_z := i16_from_be (chunk.getD 4 0) (chunk.getD 5 0)
    gyro_x := i16_from_be (chunk.getD 6 0) (chunk.getD 7 0)
    gyro_y := i16_from_be (chunk.getD 8 0) (chunk.getD 9 0)
    gyro_z := i16_from_be (chunk.getD 10 0) (chunk.getD 11 0) }

/-- `Mpu6050::parse_fifo_data`: rejects buffers whose length is not a
multiple of FIFO_SAMPLE_SIZE with InvalidFifoConfig, otherwise decodes
`length / 12` consecutive 12-byte records. -/
def parse_fifo_data (buffer : List Nat) : Except Mpu6050Error (List SensorData) :=
  if buffer.length % FIFO_SAMPLE_SIZE ≠ 0 then
    Except.error (Mpu6050Error.InvalidFifoConfig (parseLenMsg buffer.length))
  else
    Except.ok ((List.range (buffer.length / FIFO_SAMPLE_SIZE)).map fun i =>
      sensorOfChunk ((buffer.drop (i * FIFO_SAMPLE_SIZE)).take FIFO_SAMPLE_SIZE))

/-- `Mpu6050::read_all`: one 14-byte burst read from ACCEL_XOUT_H; bytes 6-7
(temperature) are discarded, the rest decode big-endian in fixed order. -/
def read_all : M SensorData :=
  mbind (read_registers REG_ACCEL_XOUT_H 14) fun data =>
  mpure
    { accel_x := i16_from_be (data.getD 0 0) (data.getD 1 0)
      accel_y := i16_from_be (data.getD 2 0) (data.getD 3 0)
      accel_z := i16_from_be (data.getD 4 0) (data.getD 5 0)
      gyro_x := i16_from_be (data.getD 8 0) (data.getD 9 0)
      gyro_y := i16_from_be (data.getD 10 0) (data.getD 11 0)
      gyro_z := i16_from_be (data.getD 12 0) (data.getD 13 0) }

/-- The sample-rate divider computed inside `enable_fifo`:
`(1000u16 / sample_rate_hz).saturating_sub(1)`; `Nat` subtraction is
truncated, which is exactly u16 `saturating_sub` here. -/
def fifoDivider (sample_rate_hz : Nat) : Nat :=
  1000 / sample_rate_hz - 1

/-- `Mpu6050::disable_fifo`: clears USER_CTRL, FIFO_EN, SMPLRT_DIV and
CONFIG, then records the Disabled state. -/
def disable_fifo : M Unit :=
  mbind (write_register REG_USER_CTRL 0x00) fun _ =>
  mbind (write_register REG_FIFO_EN 0x00) fun _ =>
  mbind (write_register REG_SMPLRT_DIV 0x00) fun _ =>
  mbind (write_register REG_CONFIG 0x00) fun _ =>
  setFifoEnabled false

/-- `Mpu6050::enable_fifo`: validates the rate, disables first if enabled,
then writes CONFIG=1 (DLPF for 1kHz), the divider (`as u8`), pulses the FIFO
reset (10ms settle elided), routes all sensors to the FIFO and sets the FIFO
enable bit. -/
def enable_fifo (sample_rate_hz : Nat) : M Unit :=
  if sample_rate_hz < 4 ∨ 1000 < sample_rate_hz then
    throwM (Mpu6050Error.InvalidParameter
      ("Sample rate must be 4-1000 Hz, got " ++ toString sample_rate_hz))
  else
    mbind getFifoEnabled fun en =>
    mbind (if en then disable_fifo else mpure ()) fun _ =>
    mbind (write_register REG_CONFIG 0x01) fun _ =>
    mbind (write_register REG_SMPLRT_DIV (fifoDivider sample_rate_hz % 256)) fun _ =>
    mbind (write_register REG_USER_CTRL USER_CTRL_FIFO_RESET) fun _ =>
    mbind (write_register REG_FIFO_EN FIFO_EN_ALL_SENSORS) fun _ =>
    mbind (write_register REG_USER_CTRL USER_CTRL_FIFO_EN) fun _ =>
    setFifoEnabled true

/-- `Mpu6050::get_fifo_count`. -/
def get_fifo_count : M Nat :=
  read_fifo_count_raw

/-- `Mpu6050::reset_fifo`: pulses the reset bit while keeping the enable bit
set (1ms settle elided). -/
def reset_fifo : M Unit :=
  mbind (write_register REG_USER_CTRL (USER_CTRL_FIFO_RESET + USER_CTRL_FIFO_EN)) fun _ =>
  write_register REG_USER_CTRL USER_CTRL_FIFO_EN

/-- `Mpu6050::read_fifo_batch`: FifoNotEnabled when Disabled; on an overflow
bit, reads the byte count, estimates lost samples as count/12, resets and
fails with FifoOverflow; otherwise reads `floor(count/12)` complete records
(empty result for a zero count) and decodes them. -/
def read_fifo_batch : M (List SensorData) :=
  mbind getFifoEnabled fun en =>
  if !en then throwM Mpu6050Error.FifoNotEnabled else
  mbind check_fifo_overflow fun overflow =>
  if overflow then
    mbind read_fifo_count_raw fun count =>
    mbind reset_fifo fun _ =>
    throwM (Mpu6050Error.FifoOverflow ("~" ++ toString (count / FIFO_SAMPLE_SIZE)))
  else
  mbind read_fifo_count_raw fun fifo_count =>
  if fifo_count = 0 then mpure [] else
  let num_samples := fifo_count / FIFO_SAMPLE_SIZE
  let bytes_to_read := num_samples * FIFO_SAMPLE_SIZE
  if bytes_to_read = 0 then mpure [] else
  mbind (read_fifo_raw bytes_to_read) fun fifo_data =>
  liftExcept (parse_fifo_data fifo_data)

/-! ## StreamScheduler (mpu6050.rs lines 481-550, 858-956)

The Rust loops run until the callback breaks or an error propagates; the
embedding adds a fuel parameter, with `none` when the fuel runs out before
the loop exits.  A Rust `FnMut` callback closing over mutable state is
modelled as a pure function `σ → input → σ × StreamControl` with the closure
state `σ` threaded explicitly.  The deadline-accumulation sleeps perform no
bus I/O and are elided. -/

/-- Loop body of `Mpu6050::stream`: read one sample, increment the count,
invoke the callback, stop on Break. -/
def streamLoop {σ : Type} (callback : σ → SensorData → σ × StreamControl) :
    Nat → Nat → σ → M (Nat × σ)
  | 0, _, _ => fun _ _ => none
  | fuel + 1, sample_count, s =>
    mbind read_all fun data =>
    let sample_count2 := sample_count + 1
    let r := callback s data
    match r.2 with
    | StreamControl.Break => mpure (sample_count2, r.1)
    | StreamControl.Continue => streamLoop callback fuel sample_count2 r.1

/-- `Mpu6050::stream`: validates 1 ≤ rate ≤ 1000, then runs the paced loop;
returns the number of samples delivered before Break. -/
def stream {σ : Type} (rate_hz : Nat)
    (callback : σ → SensorData → σ × StreamControl) (s0 : σ) (fuel : Nat) :
    M (Nat × σ) :=
  if rate_hz = 0 ∨ 1000 < rate_hz then
    throwM (Mpu6050Error.InvalidParameter
      ("Sample rate must be between 1-1000 Hz, got " ++ toString rate_hz))
  else
    streamLoop callback fuel 0 s0

/-- Loop body of `Mpu6050::stream_fifo`: read a batch each tick; only when
the batch is non-empty does the total grow and the callback run (a Break
stops the loop); an empty-batch tick invokes no callback. -/
def streamFifoLoop {σ : Type} (callback : σ → List SensorData → σ × StreamControl) :
    Nat → Nat → σ → M (Nat × σ)
  | 0, _, _ => fun _ _ => none
  | fuel + 1, total_samples, s =>
    mbind read_fifo_batch fun batch =>
    if batch.isEmpty then
      streamFifoLoop callback fuel total_samples s
    else
      let total2 := total_samples + batch.length
      let r := callback s batch
      match r.2 with
      | StreamControl.Break => mpure (total2, r.1)
      | StreamControl.Continue => streamFifoLoop callback fuel total2 r.1

/-- `Mpu6050::stream_fifo`: fails with FifoNotEnabled when Disabled (checked
before interval validation), rejects intervals outside [10,1000], then runs
the batch loop; returns the total of delivered batch lengths. -/
def stream_fifo {σ : Type} (batch_interval_ms : Nat)
    (callback : σ → List SensorData → σ × StreamControl) (s0 : σ) (fuel : Nat) :
    M (Nat × σ) :=
  mbind getFifoEnabled fun en =>
  if !en then throwM Mpu6050Error.FifoNotEnabled else
  if batch_interval_ms < 10 ∨ 1000 < batch_interval_ms then
    throwM (Mpu6050Error.InvalidParameter
      ("Batch interval must be 10-1000 ms, got " ++ toString batch_interval_ms))
  else
    streamFifoLoop callback fuel 0 s0

/-- The closure `collect_samples_fifo` passes to `stream_fifo`: extend the
accumulator with the batch, Break once its length reaches the target. -/
def collectFifoCb (num_samples : Nat) :
    List SensorData → List SensorData → List SensorData × StreamControl :=
  fun samples batch =>
    let samples2 := samples ++ batch
    (samples2,
     if num_samples ≤ samples2.length then StreamControl.Break
     else StreamControl.Continue)

/-- `Mpu6050::collect_samples_fifo`: enables the FIFO if not already
enabled, resets it, streams batches at a fixed 50 ms interval accumulating
until the target count is reached, then truncates to exactly the target. -/
def collect_samples_fifo (sample_rate_hz num_samples : Nat) (fuel : Nat) :
    M (List SensorData) :=
  mbind getFifoEnabled fun en =>
  mbind (if !en then enable_fifo sample_rate_hz else mpure ()) fun _ =>
  mbind reset_fifo fun _ =>
  let batch_interval_ms := 50
  mbind (stream_fifo batch_interval_ms (collectFifoCb num_samples) [] fuel) fun r =>
  mpure (r.2.take num_samples)

/-! ## Helpers for stating and proving run equations -/

/-- Prepend already-recorded events to the outcome of the rest of a run. -/
def withEvents {α : Type} (ev : List BusEv)
    (x : Option (Except Mpu6050Error α × Mpu6050 × List BusResp × List BusEv)) :
    Option (Except Mpu6050Error α × Mpu6050 × List BusResp × List BusEv) :=
  match x with
  | none => none
  | some (r, st, bus, ev2) => some (r, st, bus, ev ++ ev2)

/-- A script of `n` successful write acknowledgements. -/
def okWrites (n : Nat) : List BusResp :=
  List.replicate n (BusResp.wr 0 0)

/-- Script for one `stream_fifo` tick whose FIFO is empty: no overflow bit,
byte count 0. -/
def emptyTickScript : List BusResp :=
  [BusResp.wr 0 0, BusResp.rd 0 [0] 1,
   BusResp.wr 0 0, BusResp.rd 0 [0] 1,
   BusResp.wr 0 0, BusResp.rd 0 [0] 1]

/-- Script for one `stream_fifo` tick delivering one complete 12-byte
(all-zero) sample: no overflow bit, byte count 12, then the FIFO burst. -/
def oneSampleTickScript : List BusResp :=
  [BusResp.wr 0 0, BusResp.rd 0 [0] 1,
   BusResp.wr 0 0, BusResp.rd 0 [0] 1,
   BusResp.wr 0 0, BusResp.rd 0 [12] 1,
   BusResp.wr 0 0, BusResp.rd 0 (List.replicate 12 0) 96]

theorem mbind_eq_ok {α β : Type} {x : M α} {f : α → M β} {st bus a st2 bus2 ev}
    (h : x st bus = some (Except.ok a, st2, bus2, ev)) :
    mbind x f st bus = withEvents ev (f a st2 bus2) := by
  unfold mbind withEvents
  rw [h]

theorem mbind_eq_error {α β : Type} {x : M α} {f : α → M β} {st bus e st2 bus2 ev}
    (h : x st bus = some (Except.error e, st2, bus2, ev)) :
    mbind x f st bus = some (Except.error e, st2, bus2, ev) := by
  unfold mbind
  rw [h]

theorem mbind_eq_none {α β : Type} {x : M α} {f : α → M β} {st bus}
    (h : x st bus = none) :
    mbind x f st bus = none := by
  unfold mbind
  rw [h]

theorem withEvents_eq_some {α : Type} {ev : List BusEv}
    {x : Option (Except Mpu6050Error α × Mpu6050 × List BusResp × List BusEv)}
    {r st2 bus2 ev3} (h : withEvents ev x = some (r, st2, bus2, ev3)) :
    ∃ ev2, x = some (r, st2, bus2, ev2) ∧ ev3 = ev ++ ev2 := by
  unfold withEvents at h
  match x, h with
  | some (r2, st4, bus4, ev4), h =>
    refine ⟨ev4, ?_, ?_⟩ <;> cases h <;> rfl

theorem withEvents_nil {α : Type}
    {x : Option (Except Mpu6050Error α × Mpu6050 × List BusResp × List BusEv)} :
    withEvents [] x = x := by
  unfold withEvents
  match x with
  | none => rfl
  | some (r, st, bus, ev) => rfl

/-- Inversion: a bind that succeeded splits into a successful first stage
and a successful continuation, with concatenated event traces. -/
theorem mbind_ok_inv {α β : Type} {x : M α} {f : α → M β} {st bus b st3 bus3 ev}
    (h : mbind x f st bus = some (Except.ok b, st3, bus3, ev)) :
    ∃ a st2 bus2 ev1 ev2,
      x st bus = some (Except.ok a, st2, bus2, ev1) ∧
      f a st2 bus2 = some (Except.ok b, st3, bus3, ev2) ∧ ev = ev1 ++ ev2 := by
  cases hx : x st bus with
  | none =>
    rw [mbind_eq_none hx] at h
    cases h
  | some out =>
    obtain ⟨r, st2, bus2, ev1⟩ := out
    cases r with
    | error e =>
      rw [mbind_eq_error hx] at h
      simp at h
    | ok a =>
      rw [mbind_eq_ok hx] at h
      obtain ⟨ev2, hf, hev⟩ := withEvents_eq_some h
      exact ⟨a, st2, bus2, ev1, ev2, rfl, hf, hev⟩

/-! ## Claim theorems -/

/-- C7: for every rate outside [4,1000], `enable_fifo` fails with
InvalidParameter, performs no bus I/O (empty event trace, script untouched)
and leaves the FIFO state unchanged. -/
theorem c7_enable_fifo_rejects_out_of_range (rate : Nat) (st : Mpu6050)
    (bus : List BusResp) (h : rate < 4 ∨ 1000 < rate) :
    enable_fifo rate st bus =
      some (Except.error (Mpu6050Error.InvalidParameter
              ("Sample rate must be 4-1000 Hz, got " ++ toString rate)),
            st, bus, []) := by
  unfold enable_fifo
  rw [if_pos h]
  rfl

/-- C7 witness: rates 0, 3 and 1001 are rejected with InvalidParameter, with
no register writes and no state change. -/
theorem c7_enable_fifo_rejects_out_of_range_witness :
    enable_fifo 0 ⟨false⟩ [] =
      some (Except.error (Mpu6050Error.InvalidParameter
              "Sample rate must be 4-1000 Hz, got 0"), ⟨false⟩, [], []) ∧
    enable_fifo 3 ⟨true⟩ [BusResp.wr 0 0] =
      some (Except.error (Mpu6050Error.InvalidParameter
              "Sample rate must be 4-1000 Hz, got 3"), ⟨true⟩, [BusResp.wr 0 0], []) ∧
    enable_fifo 1001 ⟨false⟩ [] =
      some (Except.error (Mpu6050Error.InvalidParameter
              "Sample rate must be 4-1000 Hz, got 1001"), ⟨false⟩, [], []) :=
  ⟨c7_enable_fifo_rejects_out_of_range 0 ⟨false⟩ [] (by decide),
   c7_enable_fifo_rejects_out_of_range 3 ⟨true⟩ [BusResp.wr 0 0] (by decide),
   c7_enable_fifo_rejects_out_of_range 1001 ⟨false⟩ [] (by decide)⟩

/-- C8: whenever the controller is Disabled, `read_fifo_batch` fails with
FifoNotEnabled and issues no bus I/O (empty event trace, script untouched). -/
theorem c8_read_fifo_batch_disabled (st : Mpu6050) (bus : List BusResp)
    (h : st.fifo_enabled = false) :
    read_fifo_batch st bus =
      some (Except.error Mpu6050Error.FifoNotEnabled, st, bus, []) := by
  simp [read_fifo_batch, mbind, getFifoEnabled, h, throwM]

/-- C8 witness: a Disabled controller with a non-trivial pending script. -/
theorem c8_read_fifo_batch_disabled_witness :
    read_fifo_batch ⟨false⟩ [BusResp.wr 0 0, BusResp.rd 0 [1] 1] =
      some (Except.error Mpu6050Error.FifoNotEnabled, ⟨false⟩,
            [BusResp.wr 0 0, BusResp.rd 0 [1] 1], []) :=
  c8_read_fifo_batch_disabled ⟨false⟩ [BusResp.wr 0 0, BusResp.rd 0 [1] 1] rfl

/-- C10: `stream_fifo` checks the FIFO-enabled flag before validating the
interval: on a Disabled controller it fails with FifoNotEnabled for every
interval (in range or not), with no bus I/O. -/
theorem c10_stream_fifo_enabled_checked_first {σ : Type} (interval : Nat)
    (cb : σ → List SensorData → σ × StreamControl) (s0 : σ) (fuel : Nat)
    (st : Mpu6050) (bus : List BusResp) (h : st.fifo_enabled = false) :
    stream_fifo interval cb s0 fuel st bus =
      some (Except.error Mpu6050Error.FifoNotEnabled, st, bus, []) := by
  simp [stream_fifo, mbind, getFifoEnabled, h, throwM]

/-- C10 witness: intervals 7 (outside [10,1000]) and 50 (inside) both fail
with FifoNotEnabled, not InvalidParameter, on a Disabled controller. -/
theorem c10_stream_fifo_enabled_checked_first_witness :
    stream_fifo 7 (fun (n : Nat) _ => (n + 1, StreamControl.Continue)) 0 5
        ⟨false⟩ [BusResp.wr 0 0] =
      some (Except.error Mpu6050Error.FifoNotEnabled, ⟨false⟩, [BusResp.wr 0 0], []) ∧
    stream_fifo 50 (fun (n : Nat) _ => (n + 1, StreamControl.Continue)) 0 5
        ⟨false⟩ [] =
      some (Except.error Mpu6050Error.FifoNotEnabled, ⟨false⟩, [], []) :=
  ⟨c10_stream_fifo_enabled_checked_first 7 _ 0 5 ⟨false⟩ [BusResp.wr 0 0] rfl,
   c10_stream_fifo_enabled_checked_first 50 _ 0 5 ⟨false⟩ [] rfl⟩

/-- C9 counterexample: with ok statuses on both phases, a burst read of 6
bytes whose reported transferred count is 48 (bits, not bytes) succeeds;
the claim's `TransferError{expected:6, actual:48}` does not occur. -/
theorem c9_counterexample_no_transfer_check :
    read_registers 0x3B 6 ⟨false⟩ [BusResp.wr 0 16, BusResp.rd 0 [1, 2, 3, 4, 5, 6] 48] =
      some (Except.ok [1, 2, 3, 4, 5, 6], ⟨false⟩, [],
            [BusEv.devWrite [0x3B] 21, BusEv.devRead 6 27]) := by
  rfl

/-- C9 (amended): `read_registers` fails with the bus-fault error
(`FtdiError`, the spec's BusFault) on a non-ok status on either phase, like
`read_register`; but unlike `read_register` it performs no transferred-count
check (under fast-transfer framing the count is in bits), so with both
statuses ok it succeeds regardless of the reported transferred counts. -/
theorem c9_read_registers_status_only :
    (∀ reg count st ws wt rest, ws ≠ 0 →
      read_registers reg count st (BusResp.wr ws wt :: rest) =
        some (Except.error (ftdiError ws), st, rest, [BusEv.devWrite [reg] 21])) ∧
    (∀ reg count st wt rs bytes rt rest, rs ≠ 0 →
      read_registers reg count st (BusResp.wr 0 wt :: BusResp.rd rs bytes rt :: rest) =
        some (Except.error (ftdiError rs), st, rest,
              [BusEv.devWrite [reg] 21, BusEv.devRead count 27])) ∧
    (∀ reg count st wt bytes rt rest,
      read_registers reg count st (BusResp.wr 0 wt :: BusResp.rd 0 bytes rt :: rest) =
        some (Except.ok ((bytes.map (fun b => b % 256) ++ List.replicate count 0).take count),
              st, rest, [BusEv.devWrite [reg] 21, BusEv.devRead count 27])) := by
  refine ⟨?_, ?_, ?_⟩
  · intro reg count st ws wt rest h
    simp [read_registers, mbind, I2C_DeviceWrite, I2C_DeviceRead, throwM, mpure, FT_OK, h,
      I2C_TRANSFER_OPTIONS_START_BIT, I2C_TRANSFER_OPTIONS_STOP_BIT,
      I2C_TRANSFER_OPTIONS_BREAK_ON_NACK, I2C_TRANSFER_OPTIONS_NACK_LAST_BYTE,
      I2C_TRANSFER_OPTIONS_FAST_TRANSFER_BYTES]
  · intro reg count st wt rs bytes rt rest h
    simp [read_registers, mbind, I2C_DeviceWrite, I2C_DeviceRead, throwM, mpure, FT_OK, h,
      I2C_TRANSFER_OPTIONS_START_BIT, I2C_TRANSFER_OPTIONS_STOP_BIT,
      I2C_TRANSFER_OPTIONS_BREAK_ON_NACK, I2C_TRANSFER_OPTIONS_NACK_LAST_BYTE,
      I2C_TRANSFER_OPTIONS_FAST_TRANSFER_BYTES]
  · intro reg count st wt bytes rt rest
    simp [read_registers, mbind, I2C_DeviceWrite, I2C_DeviceRead, throwM, mpure, FT_OK,
      I2C_TRANSFER_OPTIONS_START_BIT, I2C_TRANSFER_OPTIONS_STOP_BIT,
      I2C_TRANSFER_OPTIONS_BREAK_ON_NACK, I2C_TRANSFER_OPTIONS_NACK_LAST_BYTE,
      I2C_TRANSFER_OPTIONS_FAST_TRANSFER_BYTES]

/-- C9 witness: a bad write-phase status 4 (FT_IO_ERROR) fails, a bad
read-phase status 2 fails, and ok statuses succeed with transferred = 48. -/
theorem c9_read_registers_status_only_witness :
    read_registers 0x74 12 ⟨true⟩ [BusResp.wr 4 0] =
      some (Except.error (Mpu6050Error.FtdiError 4 "FT_IO_ERROR"), ⟨true⟩, [],
            [BusEv.devWrite [0x74] 21]) ∧
    read_registers 0x74 12 ⟨true⟩ [BusResp.wr 0 8, BusResp.rd 2 [] 0] =
      some (Except.error (Mpu6050Error.FtdiError 2 "FT_DEVICE_NOT_FOUND"), ⟨true⟩, [],
            [BusEv.devWrite [0x74] 21, BusEv.devRead 12 27]) ∧
    read_registers 0x3B 6 ⟨true⟩ [BusResp.wr 0 8, BusResp.rd 0 [1, 2, 3, 4, 5, 6] 48] =
      some (Except.ok [1, 2, 3, 4, 5, 6], ⟨true⟩, [],
            [BusEv.devWrite [0x3B] 21, BusEv.devRead 6 27]) :=
  ⟨c9_read_registers_status_only.1 0x74 12 ⟨true⟩ 4 0 [] (by decide),
   c9_read_registers_status_only.2.1 0x74 12 ⟨true⟩ 8 2 [] 0 [] (by decide),
   c9_read_registers_status_only.2.2 0x3B 6 ⟨true⟩ 8 [1, 2, 3, 4, 5, 6] 48 []⟩

/-- C4: FIFO decode succeeds exactly on buffers whose length is a multiple
of 12, yielding length/12 readings, and fails with InvalidFifoConfig
otherwise; for any 24-byte buffer the second reading's six fields are the
big-endian i16 pairs of bytes [12..24) in accel x,y,z then gyro x,y,z
order. -/
theorem c4_parse_fifo_data_spec :
    (∀ buffer : List Nat,
      ((∃ l, parse_fifo_data buffer = Except.ok l) ↔ buffer.length % 12 = 0) ∧
      (∀ l, parse_fifo_data buffer = Except.ok l → l.length = buffer.length / 12) ∧
      (buffer.length % 12 ≠ 0 →
        parse_fifo_data buffer =
          Except.error (Mpu6050Error.InvalidFifoConfig (parseLenMsg buffer.length)))) ∧
    (∀ b0 b1 b2 b3 b4 b5 b6 b7 b8 b9 b10 b11
       b12 b13 b14 b15 b16 b17 b18 b19 b20 b21 b22 b23 : Nat,
      parse_fifo_data
          [b0, b1, b2, b3, b4, b5, b6, b7, b8, b9, b10, b11,
           b12, b13, b14, b15, b16, b17, b18, b19, b20, b21, b22, b23] =
        Except.ok
          [{ accel_x := i16_from_be b0 b1, accel_y := i16_from_be b2 b3,
             accel_z := i16_from_be b4 b5, gyro_x := i16_from_be b6 b7,
             gyro_y := i16_from_be b8 b9, gyro_z := i16_from_be b10 b11 },
           { accel_x := i16_from_be b12 b13, accel_y := i16_from_be b14 b15,
             accel_z := i16_from_be b16 b17, gyro_x := i16_from_be b18 b19,
             gyro_y := i16_from_be b20 b21, gyro_z := i16_from_be b22 b23 }]) := by
  constructor
  · intro buffer
    by_cases hb : buffer.length % 12 = 0
    · refine ⟨?_, ?_, fun h12 => absurd hb h12⟩
      · simp [parse_fifo_data, FIFO_SAMPLE_SIZE, hb]
      · intro l hl
        simp [parse_fifo_data, FIFO_SAMPLE_SIZE, hb] at hl
        simp [← hl]
    · refine ⟨?_, ?_, ?_⟩
      · simp [parse_fifo_data, FIFO_SAMPLE_SIZE, hb]
      · intro l hl
        simp [parse_fifo_data, FIFO_SAMPLE_SIZE, hb] at hl
      · intro _
        simp [parse_fifo_data, FIFO_SAMPLE_SIZE, hb]
  · intro b0 b1 b2 b3 b4 b5 b6 b7 b8 b9 b10 b11
      b12 b13 b14 b15 b16 b17 b18 b19 b20 b21 b22 b23
    simp [parse_fifo_data, FIFO_SAMPLE_SIZE, sensorOfChunk, List.range_succ]

/-- C4 witness: a 13-byte buffer is rejected with InvalidFifoConfig, a
24-byte buffer decodes to 2 readings, and the concrete second reading of
bytes [12..24) = [1,2,...] decodes big-endian. -/
theorem c4_parse_fifo_data_spec_witness :
    parse_fifo_data (List.replicate 13 0) =
      Except.error (Mpu6050Error.InvalidFifoConfig
        "FIFO data length 13 is not a multiple of sample size 12") ∧
    (∀ l, parse_fifo_data (List.replicate 24 0) = Except.ok l → l.length = 2) ∧
    parse_fifo_data
        [0, 0, 0, 0, 0, 0, 0, 0, 0, 0, 0, 0,
         1, 2, 3, 4, 5, 6, 7, 8, 9, 10, 11, 12] =
      Except.ok
        [{ accel_x := 0, accel_y := 0, accel_z := 0,
           gyro_x := 0, gyro_y := 0, gyro_z := 0 },
         { accel_x := 258, accel_y := 772, accel_z := 1286,
           gyro_x := 1800, gyro_y := 2314, gyro_z := 2828 }] :=
  ⟨(c4_parse_fifo_data_spec.1 (List.replicate 13 0)).2.2 (by decide),
   fun l hl => (c4_parse_fifo_data_spec.1 (List.replicate 24 0)).2.1 l hl,
   c4_parse_fifo_data_spec.2 0 0 0 0 0 0 0 0 0 0 0 0 1 2 3 4 5 6 7 8 9 10 11 12⟩

/-- C3: for every rate in [4,1000], `enable_fifo` writes
`max(0, floor(1000/rate) - 1)` (truncated Nat subtraction) to the
sample-rate-divider register; rate 1000 gives 0, 500 gives 1, 100 gives 9,
4 gives 249, and a rate whose quotient would make the value negative
saturates to 0. -/
theorem c3_enable_fifo_divider_write (rate : Nat) (h4 : 4 ≤ rate) (h1000 : rate ≤ 1000) :
    (enable_fifo rate ⟨false⟩ (okWrites 5) =
      some (Except.ok (), ⟨true⟩, [],
        [BusEv.devWrite [REG_CONFIG, 1] 19,
         BusEv.devWrite [REG_SMPLRT_DIV, 1000 / rate - 1] 19,
         BusEv.devWrite [REG_USER_CTRL, USER_CTRL_FIFO_RESET] 19,
         BusEv.devWrite [REG_FIFO_EN, FIFO_EN_ALL_SENSORS] 19,
         BusEv.devWrite [REG_USER_CTRL, USER_CTRL_FIFO_EN] 19])) ∧
    fifoDivider 1000 = 0 ∧ fifoDivider 500 = 1 ∧ fifoDivider 100 = 9 ∧
    fifoDivider 4 = 249 ∧ (∀ r, 1000 < r → fifoDivider r = 0) := by
  have h250 : 1000 / rate ≤ 1000 / 4 := Nat.div_le_div_left h4 (by norm_num)
  have hlt : 1000 / rate - 1 < 256 := by omega
  refine ⟨?_, by decide, by decide, by decide, by decide, ?_⟩
  · unfold enable_fifo
    rw [if_neg (by omega)]
    simp [mbind, getFifoEnabled, setFifoEnabled, write_register, I2C_DeviceWrite,
      mpure, throwM, FT_OK, okWrites, fifoDivider, List.replicate,
      Nat.mod_eq_of_lt hlt,
      I2C_TRANSFER_OPTIONS_START_BIT, I2C_TRANSFER_OPTIONS_STOP_BIT,
      I2C_TRANSFER_OPTIONS_FAST_TRANSFER_BYTES]
  · intro r hr
    have : 1000 / r = 0 := Nat.div_eq_of_lt (by omega)
    simp [fifoDivider, this]

/-- C3 witness: the divider write at the concrete rate 100 is 9. -/
theorem c3_enable_fifo_divider_write_witness :
    enable_fifo 100 ⟨false⟩ (okWrites 5) =
      some (Except.ok (), ⟨true⟩, [],
        [BusEv.devWrite [REG_CONFIG, 1] 19,
         BusEv.devWrite [REG_SMPLRT_DIV, 9] 19,
         BusEv.devWrite [REG_USER_CTRL, USER_CTRL_FIFO_RESET] 19,
         BusEv.devWrite [REG_FIFO_EN, FIFO_EN_ALL_SENSORS] 19,
         BusEv.devWrite [REG_USER_CTRL, USER_CTRL_FIFO_EN] 19]) ∧
    fifoDivider 1000 = 0 ∧ fifoDivider 4 = 249 :=
  ⟨(c3_enable_fifo_divider_write 100 (by decide) (by decide)).1,
   (c3_enable_fifo_divider_write 100 (by decide) (by decide)).2.1,
   (c3_enable_fifo_divider_write 100 (by decide) (by decide)).2.2.2.2.1⟩

/-- C2: on an Enabled controller with the overflow status bit set,
`read_fifo_batch` reads the FIFO byte count, estimates lost samples as
count/12, performs a FIFO reset (reset+enable then enable-only USER_CTRL
writes), fails with FifoOverflow carrying `~⌊count/12⌋`, and leaves the
controller Enabled (state unchanged). -/
theorem c2_read_fifo_batch_overflow (st : Mpu6050) (s h l : Nat) (rest : List BusResp)
    (hen : st.fifo_enabled = true) (hs : s < 256)
    (hbit : s &&& INT_STATUS_FIFO_OVERFLOW ≠ 0) (hh : h < 256) (hl : l < 256) :
    read_fifo_batch st
        (BusResp.wr 0 0 :: BusResp.rd 0 [s] 1 ::
         BusResp.wr 0 0 :: BusResp.rd 0 [h] 1 ::
         BusResp.wr 0 0 :: BusResp.rd 0 [l] 1 ::
         BusResp.wr 0 0 :: BusResp.wr 0 0 :: rest) =
      some (Except.error
              (Mpu6050Error.FifoOverflow ("~" ++ toString ((h * 256 + l) / 12))),
            st, rest,
            [BusEv.devWrite [REG_INT_STATUS] 5, BusEv.devRead 1 11,
             BusEv.devWrite [REG_FIFO_COUNTH] 5, BusEv.devRead 1 11,
             BusEv.devWrite [REG_FIFO_COUNTL] 5, BusEv.devRead 1 11,
             BusEv.devWrite [REG_USER_CTRL, USER_CTRL_FIFO_RESET + USER_CTRL_FIFO_EN] 19,
             BusEv.devWrite [REG_USER_CTRL, USER_CTRL_FIFO_EN] 19]) ∧
    st.fifo_enabled = true := by
  have hbit16 : s &&& 16 ≠ 0 := hbit
  refine ⟨?_, hen⟩
  simp [read_fifo_batch, check_fifo_overflow, read_fifo_count_raw, reset_fifo,
    read_register, write_register, I2C_DeviceWrite, I2C_DeviceRead, mbind, mpure,
    throwM, getFifoEnabled, liftExcept, hen, FT_OK, FIFO_SAMPLE_SIZE,
    INT_STATUS_FIFO_OVERFLOW, Nat.mod_eq_of_lt hs, Nat.mod_eq_of_lt hh,
    Nat.mod_eq_of_lt hl, hbit16,
    I2C_TRANSFER_OPTIONS_START_BIT, I2C_TRANSFER_OPTIONS_STOP_BIT,
    I2C_TRANSFER_OPTIONS_BREAK_ON_NACK, I2C_TRANSFER_OPTIONS_NACK_LAST_BYTE,
    I2C_TRANSFER_OPTIONS_FAST_TRANSFER_BYTES]

/-- C2 witness: overflow bit 0x10 set and a byte count of 1000 (0x03E8)
yield FifoOverflow with samples_lost "~83"; the controller stays Enabled. -/
theorem c2_read_fifo_batch_overflow_witness :
    read_fifo_batch ⟨true⟩
        (BusResp.wr 0 0 :: BusResp.rd 0 [0x10] 1 ::
         BusResp.wr 0 0 :: BusResp.rd 0 [3] 1 ::
         BusResp.wr 0 0 :: BusResp.rd 0 [232] 1 ::
         BusResp.wr 0 0 :: BusResp.wr 0 0 :: []) =
      some (Except.error (Mpu6050Error.FifoOverflow "~83"), ⟨true⟩, [],
            [BusEv.devWrite [REG_INT_STATUS] 5, BusEv.devRead 1 11,
             BusEv.devWrite [REG_FIFO_COUNTH] 5, BusEv.devRead 1 11,
             BusEv.devWrite [REG_FIFO_COUNTL] 5, BusEv.devRead 1 11,
             BusEv.devWrite [REG_USER_CTRL, USER_CTRL_FIFO_RESET + USER_CTRL_FIFO_EN] 19,
             BusEv.devWrite [REG_USER_CTRL, USER_CTRL_FIFO_EN] 19]) :=
  (c2_read_fifo_batch_overflow ⟨true⟩ 0x10 3 232 [] rfl (by decide) (by decide)
    (by decide) (by decide)).1

/-- C5: for every rate in [1,1000], `stream` performs a `read_all`,
increments the count, then invokes the callback; a Break from the callback
on its first invocation stops the loop with a count of exactly 1, with the
event trace of exactly one `read_all`. -/
theorem c5_stream_break_on_first_read (σ : Type) (rate : Nat)
    (cb : σ → SensorData → σ × StreamControl) (s0 s1 : σ) (fuel : Nat)
    (st st2 : Mpu6050) (bus bus2 : List BusResp) (d : SensorData) (ev : List BusEv)
    (h1 : 1 ≤ rate) (h2 : rate ≤ 1000)
    (hread : read_all st bus = some (Except.ok d, st2, bus2, ev))
    (hcb : cb s0 d = (s1, StreamControl.Break)) :
    stream rate cb s0 (fuel + 1) st bus = some (Except.ok (1, s1), st2, bus2, ev) := by
  unfold stream
  rw [if_neg (by omega)]
  simp only [streamLoop]
  rw [mbind_eq_ok hread]
  simp [withEvents, mpure, hcb]

/-- C5 witness: rate 100, a one-transaction script delivering 14 zero bytes,
and a callback that counts invocations and Breaks immediately: the result is
count 1 with one invocation, and the trace is one burst read of 14 bytes. -/
theorem c5_stream_break_on_first_read_witness :
    stream 100 (fun (n : Nat) _ => (n + 1, StreamControl.Break)) 0 3 ⟨true⟩
        [BusResp.wr 0 0, BusResp.rd 0 (List.replicate 14 0) 112] =
      some (Except.ok (1, 1), ⟨true⟩, [],
            [BusEv.devWrite [REG_ACCEL_XOUT_H] 21, BusEv.devRead 14 27]) :=
  c5_stream_break_on_first_read Nat 100 _ 0 1 2 ⟨true⟩ ⟨true⟩
    [BusResp.wr 0 0, BusResp.rd 0 (List.replicate 14 0) 112] [] ⟨0, 0, 0, 0, 0, 0⟩
    [BusEv.devWrite [REG_ACCEL_XOUT_H] 21, BusEv.devRead 14 27]
    (by decide) (by decide) (by rfl) (by rfl)

/-- C1 counterexample: on an Enabled controller with a valid interval (50),
the first tick's `read_fifo_batch` yields the empty batch, yet a callback
that counts its invocations and always returns Break does not stop the loop
there: the run continues into the second tick, consumes its script, and ends
with total 1 and exactly one callback invocation.  Under the claim the
callback would have been invoked on the empty first tick and its Break would
have stopped the loop with total 0 and only the first tick's bus traffic. -/
theorem c1_counterexample_empty_tick_skips_callback :
    read_fifo_batch ⟨true⟩ (emptyTickScript ++ oneSampleTickScript) =
      some (Except.ok [], ⟨true⟩, oneSampleTickScript,
            [BusEv.devWrite [REG_INT_STATUS] 5, BusEv.devRead 1 11,
             BusEv.devWrite [REG_FIFO_COUNTH] 5, BusEv.devRead 1 11,
             BusEv.devWrite [REG_FIFO_COUNTL] 5, BusEv.devRead 1 11]) ∧
    stream_fifo 50 (fun (n : Nat) _ => (n + 1, StreamControl.Break)) 0 2 ⟨true⟩
        (emptyTickScript ++ oneSampleTickScript) =
      some (Except.ok (1, 1), ⟨true⟩, [],
            [BusEv.devWrite [REG_INT_STATUS] 5, BusEv.devRead 1 11,
             BusEv.devWrite [REG_FIFO_COUNTH] 5, BusEv.devRead 1 11,
             BusEv.devWrite [REG_FIFO_COUNTL] 5, BusEv.devRead 1 11,
             BusEv.devWrite [REG_INT_STATUS] 5, BusEv.devRead 1 11,
             BusEv.devWrite [REG_FIFO_COUNTH] 5, BusEv.devRead 1 11,
             BusEv.devWrite [REG_FIFO_COUNTL] 5, BusEv.devRead 1 11,
             BusEv.devWrite [REG_FIFO_R_W] 21, BusEv.devRead 12 27]) :=
  ⟨by rfl, by rfl⟩

/-- C1 (amended): the per-tick callback is invoked only on ticks whose batch
is non-empty, with the batch `read_fifo_batch` produced on that tick; on an
empty-batch tick the callback is not invoked and the loop proceeds with the
callback state and running total unchanged; a Break returned by the callback
on a (necessarily non-empty) tick stops the loop, returning the total
accumulated so far plus that batch's length; a Continue recurses with the
updated state and total. -/
theorem c1_stream_fifo_tick_semantics (σ : Type)
    (cb : σ → List SensorData → σ × StreamControl) :
    (∀ fuel total (s : σ) st bus st2 bus2 ev,
      read_fifo_batch st bus = some (Except.ok [], st2, bus2, ev) →
      streamFifoLoop cb (fuel + 1) total s st bus =
        withEvents ev (streamFifoLoop cb fuel total s st2 bus2)) ∧
    (∀ fuel total (s s2 : σ) st bus st2 bus2 ev batch,
      read_fifo_batch st bus = some (Except.ok batch, st2, bus2, ev) →
      batch ≠ [] → cb s batch = (s2, StreamControl.Break) →
      streamFifoLoop cb (fuel + 1) total s st bus =
        some (Except.ok (total + batch.length, s2), st2, bus2, ev)) ∧
    (∀ fuel total (s s2 : σ) st bus st2 bus2 ev batch,
      read_fifo_batch st bus = some (Except.ok batch, st2, bus2, ev) →
      batch ≠ [] → cb s batch = (s2, StreamControl.Continue) →
      streamFifoLoop cb (fuel + 1) total s st bus =
        withEvents ev (streamFifoLoop cb fuel (total + batch.length) s2 st2 bus2)) := by
  refine ⟨?_, ?_, ?_⟩
  · intro fuel total s st bus st2 bus2 ev hread
    simp only [streamFifoLoop]
    rw [mbind_eq_ok hread]
    simp
  · intro fuel total s s2 st bus st2 bus2 ev batch hread hne hcb
    simp only [streamFifoLoop]
    rw [mbind_eq_ok hread]
    simp [List.isEmpty_iff, hne, hcb, withEvents, mpure]
  · intro fuel total s s2 st bus st2 bus2 ev batch hread hne hcb
    simp only [streamFifoLoop]
    rw [mbind_eq_ok hread]
    simp [List.isEmpty_iff, hne, hcb]

/-- C1 amended-claim witness: concrete empty and one-sample ticks.  The
empty tick leaves the invocation count at 0 and skips the callback; the
one-sample tick with a Break-returning counting callback stops with total 1
and one invocation. -/
theorem c1_stream_fifo_tick_semantics_witness :
    streamFifoLoop (fun (n : Nat) _ => (n + 1, StreamControl.Break)) 2 0 0 ⟨true⟩
        (emptyTickScript ++ oneSampleTickScript) =
      withEvents
        [BusEv.devWrite [REG_INT_STATUS] 5, BusEv.devRead 1 11,
         BusEv.devWrite [REG_FIFO_COUNTH] 5, BusEv.devRead 1 11,
         BusEv.devWrite [REG_FIFO_COUNTL] 5, BusEv.devRead 1 11]
        (streamFifoLoop (fun (n : Nat) _ => (n + 1, StreamControl.Break)) 1 0 0 ⟨true⟩
          oneSampleTickScript) ∧
    streamFifoLoop (fun (n : Nat) _ => (n + 1, StreamControl.Break)) 1 0 0 ⟨true⟩
        oneSampleTickScript =
      some (Except.ok (1, 1), ⟨true⟩, [],
            [BusEv.devWrite [REG_INT_STATUS] 5, BusEv.devRead 1 11,
             BusEv.devWrite [REG_FIFO_COUNTH] 5, BusEv.devRead 1 11,
             BusEv.devWrite [REG_FIFO_COUNTL] 5, BusEv.devRead 1 11,
             BusEv.devWrite [REG_FIFO_R_W] 21, BusEv.devRead 12 27]) :=
  ⟨(c1_stream_fifo_tick_semantics Nat
      (fun n _ => (n + 1, StreamControl.Break))).1 1 0 0 ⟨true⟩
      (emptyTickScript ++ oneSampleTickScript) ⟨true⟩ oneSampleTickScript
      [BusEv.devWrite [REG_INT_STATUS] 5, BusEv.devRead 1 11,
       BusEv.devWrite [REG_FIFO_COUNTH] 5, BusEv.devRead 1 11,
       BusEv.devWrite [REG_FIFO_COUNTL] 5, BusEv.devRead 1 11] (by rfl),
   (c1_stream_fifo_tick_semantics Nat
      (fun n _ => (n + 1, StreamControl.Break))).2.1 0 0 0 1 ⟨true⟩
      oneSampleTickScript ⟨true⟩ []
      [BusEv.devWrite [REG_INT_STATUS] 5, BusEv.devRead 1 11,
       BusEv.devWrite [REG_FIFO_COUNTH] 5, BusEv.devRead 1 11,
       BusEv.devWrite [REG_FIFO_COUNTL] 5, BusEv.devRead 1 11,
       BusEv.devWrite [REG_FIFO_R_W] 21, BusEv.devRead 12 27]
      [⟨0, 0, 0, 0, 0, 0⟩] (by rfl) (by decide) (by rfl)⟩

/-- Invariant of the `collect_samples_fifo` accumulation loop: the loop only
returns successfully through a Break of `collectFifoCb`, which requires the
accumulator to have reached the target length. -/
theorem streamFifoLoop_collect_le (n : Nat) :
    ∀ (fuel total : Nat) (s : List SensorData) (st : Mpu6050) (bus : List BusResp)
      (t : Nat) (s2 : List SensorData) (st2 : Mpu6050) (bus2 : List BusResp)
      (ev : List BusEv),
      streamFifoLoop (collectFifoCb n) fuel total s st bus =
        some (Except.ok (t, s2), st2, bus2, ev) →
      n ≤ s2.length := by
  intro fuel
  induction fuel with
  | zero =>
    intro total s st bus t s2 st2 bus2 ev h
    simp [streamFifoLoop] at h
  | succ fuel ih =>
    intro total s st bus t s2 st2 bus2 ev h
    simp only [streamFifoLoop] at h
    obtain ⟨batch, stm, busm, ev1, ev2, hr, hbody, hev⟩ := mbind_ok_inv h
    by_cases hb : batch.isEmpty = true
    · rw [if_pos hb] at hbody
      exact ih total s stm busm t s2 st2 bus2 ev2 hbody
    · rw [if_neg hb] at hbody
      simp only [collectFifoCb] at hbody
      by_cases hn : n ≤ (s ++ batch).length
      · rw [if_pos hn] at hbody
        simp only [mpure, Option.some.injEq, Prod.mk.injEq, Except.ok.injEq] at hbody
        obtain ⟨⟨ht, hs⟩, hst, hbus, hev2⟩ := hbody
        rw [← hs]
        exact hn
      · rw [if_neg hn] at hbody
        exact ih (total + batch.length) (s ++ batch) stm busm t s2 st2 bus2 ev2 hbody

/-- C6: `collect_samples_fifo` ensures the FIFO is enabled (enabling it only
when not already enabled), resets it, streams at the fixed 50 ms interval
accumulating until the target is reached, and a successful run always
returns exactly `n` readings, truncating any overshoot of the final batch. -/
theorem c6_collect_samples_fifo_exact_count (rate n fuel : Nat) (st st2 : Mpu6050)
    (bus bus2 : List BusResp) (l : List SensorData) (ev : List BusEv)
    (h : collect_samples_fifo rate n fuel st bus = some (Except.ok l, st2, bus2, ev)) :
    l.length = n := by
  simp only [collect_samples_fifo] at h
  obtain ⟨en, stA, busA, evA, evR1, hA, hrest, -⟩ := mbind_ok_inv h
  obtain ⟨u, stB, busB, evB, evR2, hB, hrest2, -⟩ := mbind_ok_inv hrest
  obtain ⟨u2, stC, busC, evC, evR3, hC, hrest3, -⟩ := mbind_ok_inv hrest2
  obtain ⟨r, stD, busD, evD, evR4, hD, hrest4, -⟩ := mbind_ok_inv hrest3
  simp only [mpure, Option.some.injEq, Prod.mk.injEq, Except.ok.injEq] at hrest4
  obtain ⟨hln, hst, hbus, hev4⟩ := hrest4
  unfold stream_fifo at hD
  obtain ⟨en2, stE, busE, evE, evR5, hE, hrest5, -⟩ := mbind_ok_inv hD
  cases en2 with
  | false => simp [throwM] at hrest5
  | true =>
    rw [if_neg (by decide)] at hrest5
    rw [if_neg (by decide)] at hrest5
    obtain ⟨t, s2⟩ := r
    have hge := streamFifoLoop_collect_le n fuel 0 [] stE busE t s2 stD busD evR5 hrest5
    rw [← hln]
    simp only [List.length_take]
    omega

/-- C6 witness: collecting 1 sample at rate 1000 from a Disabled start,
where the single tick delivers a 2-sample batch (overshoot), returns exactly
1 reading. -/
theorem c6_collect_samples_fifo_exact_count_witness :
    (List.length [({ accel_x := 0, accel_y := 0, accel_z := 0,
                     gyro_x := 0, gyro_y := 0, gyro_z := 0 } : SensorData)] = 1) ∧
    collect_samples_fifo 1000 1 1 ⟨false⟩
        (okWrites 5 ++ okWrites 2 ++
         [BusResp.wr 0 0, BusResp.rd 0 [0] 1,
          BusResp.wr 0 0, BusResp.rd 0 [0] 1,
          BusResp.wr 0 0, BusResp.rd 0 [24] 1,
          BusResp.wr 0 0, BusResp.rd 0 (List.replicate 24 0) 192]) =
      some (Except.ok [{ accel_x := 0, accel_y := 0, accel_z := 0,
                         gyro_x := 0, gyro_y := 0, gyro_z := 0 }], ⟨true⟩, [],
            [BusEv.devWrite [REG_CONFIG, 1] 19,
             BusEv.devWrite [REG_SMPLRT_DIV, 0] 19,
             BusEv.devWrite [REG_USER_CTRL, USER_CTRL_FIFO_RESET] 19,
             BusEv.devWrite [REG_FIFO_EN, FIFO_EN_ALL_SENSORS] 19,
             BusEv.devWrite [REG_USER_CTRL, USER_CTRL_FIFO_EN] 19,
             BusEv.devWrite [REG_USER_CTRL, USER_CTRL_FIFO_RESET + USER_CTRL_FIFO_EN] 19,
             BusEv.devWrite [REG_USER_CTRL, USER_CTRL_FIFO_EN] 19,
             BusEv.devWrite [REG_INT_STATUS] 5, BusEv.devRead 1 11,
             BusEv.devWrite [REG_FIFO_COUNTH] 5, BusEv.devRead 1 11,
             BusEv.devWrite [REG_FIFO_COUNTL] 5, BusEv.devRead 1 11,
             BusEv.devWrite [REG_FIFO_R_W] 21, BusEv.devRead 24 27]) :=
  ⟨c6_collect_samples_fifo_exact_count 1000 1 1 ⟨false⟩ ⟨true⟩
      (okWrites 5 ++ okWrites 2 ++
       [BusResp.wr 0 0, BusResp.rd 0 [0] 1,
        BusResp.wr 0 0, BusResp.rd 0 [0] 1,
        BusResp.wr 0 0, BusResp.rd 0 [24] 1,
        BusResp.wr 0 0, BusResp.rd 0 (List.replicate 24 0) 192]) []
      [{ accel_x := 0, accel_y := 0, accel_z := 0,
         gyro_x := 0, gyro_y := 0, gyro_z := 0 }]
      [BusEv.devWrite [REG_CONFIG, 1] 19,
       BusEv.devWrite [REG_SMPLRT_DIV, 0] 19,
       BusEv.devWrite [REG_USER_CTRL, USER_CTRL_FIFO_RESET] 19,
       BusEv.devWrite [REG_FIFO_EN, FIFO_EN_ALL_SENSORS] 19,
       BusEv.devWrite [REG_USER_CTRL, USER_CTRL_FIFO_EN] 19,
       BusEv.devWrite [REG_USER_CTRL, USER_CTRL_FIFO_RESET + USER_CTRL_FIFO_EN] 19,
       BusEv.devWrite [REG_USER_CTRL, USER_CTRL_FIFO_EN] 19,
       BusEv.devWrite [REG_INT_STATUS] 5, BusEv.devRead 1 11,
       BusEv.devWrite [REG_FIFO_COUNTH] 5, BusEv.devRead 1 11,
       BusEv.devWrite [REG_FIFO_COUNTL] 5, BusEv.devRead 1 11,
       BusEv.devWrite [REG_FIFO_R_W] 21, BusEv.devRead 24 27]
      (by rfl),
   by rfl⟩

end Mpu
